import Mathlib

/-
Shallow embedding of kern/thread/synch.c (OS/161 synchronization
primitives: semaphores, locks, condition variables).

Modelling conventions:
- A thread is identified by a `Nat` (the value of the C `curthread`
  pointer, which is non-null whenever `CURCPU_EXISTS()` holds).
- The ambient execution context (`CURCPU_EXISTS()`, `curthread`,
  `curthread->t_in_interrupt`) is passed explicitly as a `Ctx`.
- A wait channel is modelled by the list of threads queued on it
  (`wchan_sleep` enqueues at the tail, `wchan_wakeone` dequeues the
  head; the source leaves wake order unspecified, and no theorem below
  depends on the order).
- `KASSERT` failure is a fatal outcome, modelled with `Except String`
  or an explicit `fatal` constructor carrying the asserted condition.
- The C `unsigned` fields are modelled as `Nat` with increments taken
  modulo 2^32.
- Spinlock acquire/release pairs around each operation's body are not
  separate states here: operations run under their guard from entry to
  exit, so each operation is one atomic state transformation; for
  `cv_wait`, which holds its guard across a sleep, the guard is
  tracked through an explicit event trace.
-/

namespace Synch

/-- Thread identity: value of the `curthread` pointer. -/
abbrev Thread := Nat

/-- Ambient execution context read by the source through globals:
`CURCPU_EXISTS()`, `curthread`, `curthread->t_in_interrupt`. -/
structure Ctx where
  curcpuExists : Bool
  curthread : Thread
  tInInterrupt : Bool
deriving Repr, DecidableEq

/-- Modulus for the C `unsigned` type. -/
def UINT_MOD : Nat := 4294967296

/-! ### Semaphore (synch.c lines 47-135) -/

/-- State of a `struct semaphore`: `sem_count` (C `unsigned`) and the
queue of threads sleeping on `sem_wchan`. -/
structure SemState where
  sem_count : Nat
  sem_wchan : List Thread
deriving Repr, DecidableEq

/-- Outcome of one pass through the body of `P`. -/
inductive POutcome where
  | completed
  | blockedOut
deriving Repr, DecidableEq

/-- One iteration of the `while (sem->sem_count == 0)` loop of `P`
(lines 103-120), executed under `sem_lock`: if the count is zero the
caller sleeps on `sem_wchan` (releasing the guard atomically via
`wchan_sleep(sem->sem_wchan, &sem->sem_lock)`); otherwise
`KASSERT(sem->sem_count > 0)` holds and the count is decremented.
A woken thread re-enters this same check (the loop re-tests). -/
def P_check (t : Thread) (s : SemState) : SemState × POutcome :=
  if s.sem_count = 0 then
    ({ s with sem_wchan := s.sem_wchan ++ [t] }, POutcome.blockedOut)
  else
    ({ s with sem_count := s.sem_count - 1 }, POutcome.completed)

/-- Entry to `P` (lines 88-121): `KASSERT(curthread->t_in_interrupt ==
false)` then the guarded loop. (`KASSERT(sem != NULL)` holds by
construction: a `SemState` models an existing semaphore.) -/
def P_enter (ctx : Ctx) (t : Thread) (s : SemState) :
    Except String (SemState × POutcome) :=
  if ctx.tInInterrupt then
    Except.error "KASSERT curthread->t_in_interrupt == false"
  else
    Except.ok (P_check t s)

/-- Body of `V` (lines 123-135), under `sem_lock`: increment
`sem_count` (unsigned, hence mod 2^32), `KASSERT(sem->sem_count > 0)`
(fatal exactly on wrap to zero), then `wchan_wakeone`. Returns the new
state and the woken thread, if any. -/
def V_run (s : SemState) : Except String (SemState × Option Thread) :=
  let c := (s.sem_count + 1) % UINT_MOD
  if c = 0 then
    Except.error "KASSERT sem->sem_count > 0"
  else
    match s.sem_wchan with
    | [] => Except.ok ({ s with sem_count := c }, none)
    | w :: ws => Except.ok ({ sem_count := c, sem_wchan := ws }, some w)

/-- Concurrent histories of a semaphore initialized with count `n`
(`sem_create`, line 71: `sem->sem_count = initial_count`), with the
number of completed `P`s and of `V`s as indices. Steps are the three
atomic guarded sections the code can execute: a `P` check that
completes, a `P` check that blocks, and a `V`. -/
inductive SemReach (n : Nat) : SemState → Nat → Nat → Prop where
  | init : SemReach n ⟨n, []⟩ 0 0
  | pdone (t : Thread) (s s₂ : SemState) (a v : Nat) :
      SemReach n s a v → P_check t s = (s₂, POutcome.completed) →
      SemReach n s₂ (a + 1) v
  | pblock (t : Thread) (s s₂ : SemState) (a v : Nat) :
      SemReach n s a v → P_check t s = (s₂, POutcome.blockedOut) →
      SemReach n s₂ a v
  | vstep (s s₂ : SemState) (w : Option Thread) (a v : Nat) :
      SemReach n s a v → V_run s = Except.ok (s₂, w) →
      SemReach n s₂ a (v + 1)

/-! ### Lock (synch.c lines 141-284) -/

/-- State of a `struct lock`: `flagLocked` (the free/held indicator:
the code treats a POSITIVE value as free — `lock_acquire` waits
`while (flagLocked == 0)` and then sets it to 0, `lock_release`
increments it), the `owner` pointer (`NULL` = `none`), and the queue
of threads sleeping on `lockWchan`. -/
structure LockState where
  flagLocked : Nat
  owner : Option Thread
  lockWchan : List Thread
deriving Repr, DecidableEq

/-- `lock_create` (lines 141-175), successful-allocation path:
`flagLocked = 1`, `owner = NULL`, fresh empty wait channel. -/
def lock_create : LockState :=
  { flagLocked := 1, owner := none, lockWchan := [] }

/-- Outcome of `lock_acquire`: success, blocked on the wait channel,
or a fatal `KASSERT`. -/
inductive LockAcqResult where
  | ok (s : LockState)
  | blockedOn (s : LockState)
  | fatal (msg : String)
deriving Repr, DecidableEq

/-- `lock_acquire` (lines 192-239). In order: `KASSERT(curthread->
t_in_interrupt == false)`; if `CURCPU_EXISTS()`, the self-deadlock
check `KASSERT(lock->owner != curthread)`; then under `lockProtect`,
`while (flagLocked == 0)` sleep on `lockWchan` (enqueue, release
guard, `wchan_sleep`); on the exit path `KASSERT(flagLocked > 0)`
holds (the loop guard just failed), `flagLocked` is set to 0 and
`owner` to `curthread` when `CURCPU_EXISTS()`, else `NULL`. -/
def lock_acquire (ctx : Ctx) (l : LockState) : LockAcqResult :=
  if ctx.tInInterrupt then
    LockAcqResult.fatal "KASSERT curthread->t_in_interrupt == false"
  else if ctx.curcpuExists ∧ l.owner = some ctx.curthread then
    LockAcqResult.fatal "KASSERT lock->owner != curthread"
  else if l.flagLocked = 0 then
    LockAcqResult.blockedOn { l with lockWchan := l.lockWchan ++ [ctx.curthread] }
  else
    LockAcqResult.ok
      { l with flagLocked := 0,
               owner := if ctx.curcpuExists then some ctx.curthread else none }

/-- Outcome of `lock_release`: new state plus the thread woken by
`wchan_wakeone` (if any), or a fatal `KASSERT`. -/
inductive LockRelResult where
  | ok (s : LockState) (woken : Option Thread)
  | fatal (msg : String)
deriving Repr, DecidableEq

/-- `lock_release` (lines 241-267). Under `lockProtect`: if
`CURCPU_EXISTS()`, the source line 257 reads
`KASSERT(lock->owner = curthread)` — a single `=`, so it ASSIGNS
`curthread` to `lock->owner` and asserts that the assigned pointer is
non-null (which it is whenever `CURCPU_EXISTS()`); it never compares
against the previous owner, and the owner field is never cleared.
Then `lock->flagLocked++` (unsigned), `KASSERT(lock->flagLocked > 0)`
(fatal exactly on wrap), and `wchan_wakeone(lock->lockWchan, ...)`. -/
def lock_release (ctx : Ctx) (l : LockState) : LockRelResult :=
  let l₁ := if ctx.curcpuExists then { l with owner := some ctx.curthread } else l
  if ctx.curcpuExists ∧ (some ctx.curthread : Option Thread) = none then
    LockRelResult.fatal "KASSERT lock->owner (assigned curthread) non-null"
  else
    let f := (l₁.flagLocked + 1) % UINT_MOD
    if f = 0 then
      LockRelResult.fatal "KASSERT lock->flagLocked > 0"
    else
      match l₁.lockWchan with
      | [] => LockRelResult.ok { l₁ with flagLocked := f } none
      | w :: ws =>
          LockRelResult.ok { l₁ with flagLocked := f, lockWchan := ws } (some w)

/-- `lock_do_i_hold` (lines 269-284): `if (CURCPU_EXISTS()) return
true;` — unconditionally true when thread identity is available — and
otherwise `return (lock->owner == curthread)`. -/
def lock_do_i_hold (ctx : Ctx) (l : LockState) : Bool :=
  if ctx.curcpuExists then
    true
  else
    decide (l.owner = some ctx.curthread)

/-- `lock_destroy` (lines 177-190): `KASSERT(lock != NULL)` (holds by
construction), `spinlock_cleanup(&lock->lockProtect)` (its own
held-check cannot fire here: the guard is not held between
operations), and `wchan_destroy(lock->lockWchan)`, which is fatal if
any thread is queued. The `flagLocked`/`owner` fields are never
examined. -/
def lock_destroy (l : LockState) : Except String Unit :=
  match l.lockWchan with
  | [] => Except.ok ()
  | _ :: _ => Except.error "wchan_destroy: threads still queued"

/-- Context of a thread `t` running normally with thread identity
available: `CURCPU_EXISTS()` true, not in an interrupt handler. -/
def mkCtx (t : Thread) : Ctx :=
  { curcpuExists := true, curthread := t, tInInterrupt := false }

/-- Lock states reachable by the usage discipline of the spec's state
machine (operations by threads with identity available): the created
state; any successful `lock_acquire`; and `lock_release` invoked by
the thread `t` recorded as owner while the lock is held (the only
release transition the spec's machine defines). -/
inductive LockReach : LockState → Prop where
  | created : LockReach lock_create
  | acq (t : Thread) (s s₂ : LockState) :
      LockReach s → lock_acquire (mkCtx t) s = LockAcqResult.ok s₂ →
      LockReach s₂
  | rel (t : Thread) (s s₂ : LockState) (w : Option Thread) :
      LockReach s → s.flagLocked = 0 → s.owner = some t →
      lock_release (mkCtx t) s = LockRelResult.ok s₂ w →
      LockReach s₂

/-- The spec's claimed state space, as a decidable check: FREE
(indicator available, owner none) or HELD (indicator in the held
state, an owner recorded). -/
def lockClaimSetB (s : LockState) : Bool :=
  (decide (s.flagLocked ≠ 0) && decide (s.owner = none)) ||
  (decide (s.flagLocked = 0) && decide (s.owner ≠ none))

/-- The state space the code actually reaches: additionally a state
that is free (indicator 1) but still carries the last owner. -/
def lockReachShape (s : LockState) : Prop :=
  s.lockWchan = [] ∧
  ((s.flagLocked = 1 ∧ s.owner = none) ∨
   (∃ t : Thread, s.flagLocked = 0 ∧ s.owner = some t) ∨
   (∃ t : Thread, s.flagLocked = 1 ∧ s.owner = some t))

/-! ### Condition variable (synch.c lines 291-399) -/

/-- An abstract pointer value, enough to distinguish what the
`cv_create` code actually stores in each field: the null pointer, a
string allocated by `kstrdup`, a wait channel from `wchan_create`, or
junk left in memory freshly returned by `kmalloc`. -/
inductive Ptr where
  | null
  | strp (s : String)
  | wchanp (id : Nat)
  | junkp (k : Nat)
deriving Repr, DecidableEq

/-- A constructed `struct cv` as `cv_create` returns it: the values
left in `cv_name` and `cvWchan`, and whether `spinlock_init` ran on
`cvLock`. -/
structure CV where
  cv_name : Ptr
  cvWchan : Ptr
  cvLockInited : Bool
deriving Repr, DecidableEq

/-- Allocation oracle for one run of a `create` function: whether
`kmalloc`, `kstrdup` and `wchan_create` each succeed. -/
structure AllocEnv where
  kmallocOk : Bool
  kstrdupOk : Bool
  wchanCreateOk : Bool
deriving Repr, DecidableEq

/-- `cv_create` (lines 291-321). After `kmalloc` and `kstrdup`
succeed, line 309 reads `cv->cv_name = wchan_create(cv->cv_name);` —
it stores the new wait channel (or NULL on failure) into `cv_name`,
clobbering the name pointer, and never writes `cvWchan`. Line 310
then tests `cv->cvWchan == NULL`: a read of the UNINITIALIZED field,
whose junk content `junkInit` came from `kmalloc`. If the junk is
non-null the function proceeds, runs `spinlock_init(&cv->cvLock)` and
returns the cv. -/
def cv_create (env : AllocEnv) (nm : String) (junkInit : Ptr) : Option CV :=
  if env.kmallocOk = false then
    none
  else if env.kstrdupOk = false then
    none
  else
    let wres : Ptr := if env.wchanCreateOk then Ptr.wchanp 0 else Ptr.null
    let _named : Ptr := Ptr.strp nm
    if junkInit = Ptr.null then
      none
    else
      some { cv_name := wres, cvWchan := junkInit, cvLockInited := true }

/-- The five calls `cv_wait` (lines 338-362) makes, in source order. -/
inductive CVEvent where
  | spinAcquireGuard
  | releaseAssocLock
  | sleepOnCvWchan
  | spinReleaseGuard
  | acquireAssocLock
deriving Repr, DecidableEq

/-- Nesting depth of the cv guard spinlock after a trace of events:
`spinlock_acquire(&cv->cvLock)` raises it, `spinlock_release` lowers
it. -/
def guardDepth (evs : List CVEvent) : Nat :=
  evs.foldl
    (fun d e =>
      match e with
      | CVEvent.spinAcquireGuard => d + 1
      | CVEvent.spinReleaseGuard => d - 1
      | _ => d)
    0

/-- Outcome of a run of `cv_wait`. -/
inductive CvWaitResult where
  | returned (trace : List CVEvent) (lk : LockState)
  | blockedAtReacquire (trace : List CVEvent)
  | fatal (msg : String)
deriving Repr, DecidableEq

/-- `cv_wait` (lines 338-362), in source order: `spinlock_acquire(&cv
->cvLock)`; `lock_release(lock)`; `wchan_sleep(cv->cvWchan)` — the
caller sleeps while still holding the cv guard; on wake,
`spinlock_release(&cv->cvLock)`; finally `lock_acquire(lock)`.
`lkAtWake` is the state of the associated lock when the sleeper is
woken (other threads may have operated on the lock during the blocked
interval; with no interference it equals the state `lock_release`
left). -/
def cv_wait_run (ctx : Ctx) (lk lkAtWake : LockState) : CvWaitResult :=
  match lock_release ctx lk with
  | LockRelResult.fatal m => CvWaitResult.fatal m
  | LockRelResult.ok _ _ =>
    match lock_acquire ctx lkAtWake with
    | LockAcqResult.fatal m => CvWaitResult.fatal m
    | LockAcqResult.blockedOn _ =>
        CvWaitResult.blockedAtReacquire
          [CVEvent.spinAcquireGuard, CVEvent.releaseAssocLock,
           CVEvent.sleepOnCvWchan, CVEvent.spinReleaseGuard]
    | LockAcqResult.ok s =>
        CvWaitResult.returned
          [CVEvent.spinAcquireGuard, CVEvent.releaseAssocLock,
           CVEvent.sleepOnCvWchan, CVEvent.spinReleaseGuard,
           CVEvent.acquireAssocLock] s

/-- The call sequence §4.3 of the spec claims for `wait`: acquire the
cv guard; release the associated lock; block on the cv wait queue; on
wake release the guard; re-acquire the lock before returning. Stated
from the spec's words, to compare with the trace `cv_wait_run`
produces from the source. -/
def cvWaitClaimedTrace : List CVEvent :=
  [CVEvent.spinAcquireGuard, CVEvent.releaseAssocLock, CVEvent.sleepOnCvWchan,
   CVEvent.spinReleaseGuard, CVEvent.acquireAssocLock]

/-! ### Helper lemmas -/

/-- Equation for `lock_release` on a held lock when thread identity is
available: the indicator becomes 1 (free), the owner field is set to
the CALLING thread (line 257 assigns, it does not compare or clear),
and `wchan_wakeone` dequeues the head waiter if any. -/
theorem lock_release_held_eq (ctx : Ctx) (l : LockState)
    (hid : ctx.curcpuExists = true) (hheld : l.flagLocked = 0) :
    lock_release ctx l =
      LockRelResult.ok
        { flagLocked := 1, owner := some ctx.curthread,
          lockWchan := l.lockWchan.tail }
        l.lockWchan.head? := by
  obtain ⟨f, o, w⟩ := l
  simp only at hheld
  subst hheld
  cases w <;> simp [lock_release, hid, UINT_MOD]

/-- A successful `lock_acquire` with thread identity available leaves
the lock held with the caller recorded as owner. -/
theorem lock_acquire_ok_post (ctx : Ctx) (l s : LockState)
    (hid : ctx.curcpuExists = true)
    (h : lock_acquire ctx l = LockAcqResult.ok s) :
    s.flagLocked = 0 ∧ s.owner = some ctx.curthread ∧
    s.lockWchan = l.lockWchan := by
  unfold lock_acquire at h
  split at h
  · exact absurd h (by simp)
  · split at h
    · exact absurd h (by simp)
    · split at h
      · exact absurd h (by simp)
      · injection h with h
        subst h
        simp [hid]

/-- `lock_acquire` on a held lock never returns successfully: the
caller either hits the self-deadlock `KASSERT` or goes to sleep. -/
theorem lock_acquire_held_not_ok (ctx : Ctx) (l s : LockState)
    (hheld : l.flagLocked = 0) :
    lock_acquire ctx l ≠ LockAcqResult.ok s := by
  unfold lock_acquire
  by_cases hi : ctx.tInInterrupt <;>
    by_cases ho : ctx.curcpuExists ∧ l.owner = some ctx.curthread <;>
      simp [hi, ho, hheld]

/-! ### Claim theorems -/

/-- C1 (code bug): the spec demands that `lock_release` by a thread
that is not the recorded owner be fatal. In the code, line 257 reads
`KASSERT(lock->owner = curthread)` — assignment, not comparison — so
with thread identity available a non-owner release silently succeeds
and re-points `owner` at the releasing thread: here thread 1 releases
a lock owned by thread 0 and gets a successful result with
`owner = some 1`. -/
theorem lock_release_by_nonowner_not_fatal :
    lock_release { curcpuExists := true, curthread := 1, tInInterrupt := false }
        { flagLocked := 0, owner := some 0, lockWchan := [] } =
      LockRelResult.ok { flagLocked := 1, owner := some 1, lockWchan := [] } none := by
  decide

/-- C2 (code bug): the spec says `lock_do_i_hold` is true only if the
caller is the recorded owner and never reports ownership that is not
recorded. The code (line 278) returns `true` unconditionally whenever
`CURCPU_EXISTS()`: here the caller (thread 1) is told it holds a
freshly created lock whose owner field is `NULL`. -/
theorem lock_do_i_hold_true_without_ownership :
    lock_do_i_hold { curcpuExists := true, curthread := 1, tInInterrupt := false }
        { flagLocked := 1, owner := none, lockWchan := [] } = true ∧
    ({ flagLocked := 1, owner := none, lockWchan := [] } : LockState).owner.isNone = true := by
  decide

/-- C3 (code bug): the spec demands `cv_create` return NULL on any
allocation failure with no partial object reachable, and on success a
cv with its wait channel initialized. Line 309 stores the result of
`wchan_create` into `cv_name` (not `cvWchan`) and line 310 tests the
uninitialized `cvWchan` junk. First conjunct: with `wchan_create`
failing and non-null junk in the field, `cv_create` returns a non-NULL
cv whose `cv_name` is NULL. Second conjunct: even when every
allocation succeeds, the returned cv's `cvWchan` still holds the junk
and the created wait channel sits in `cv_name`. -/
theorem cv_create_returns_partial_object :
    cv_create { kmallocOk := true, kstrdupOk := true, wchanCreateOk := false }
        "mycv" (Ptr.junkp 0) =
      some { cv_name := Ptr.null, cvWchan := Ptr.junkp 0, cvLockInited := true } ∧
    cv_create { kmallocOk := true, kstrdupOk := true, wchanCreateOk := true }
        "mycv" (Ptr.junkp 0) =
      some { cv_name := Ptr.wchanp 0, cvWchan := Ptr.junkp 0, cvLockInited := true } := by
  decide

/-- C4 counterexample: the claim says that after the owner releases,
the owner field is cleared to none. Releasing a lock held by thread 0,
as thread 0, yields a state whose owner field is still `some 0` (the
release re-assigns it, never clears it): `Option.isNone` of the
resulting owner field is false. -/
theorem lock_release_does_not_clear_owner :
    lock_release (mkCtx 0) { flagLocked := 0, owner := some 0, lockWchan := [] } =
      LockRelResult.ok { flagLocked := 1, owner := some 0, lockWchan := [] } none ∧
    ({ flagLocked := 1, owner := some 0, lockWchan := [] } : LockState).owner.isNone = false := by
  decide

/-- C4 (amended): for a lock in the held state with recorded owner t,
after t calls `lock_release` the lock is marked free (indicator 1) and
exactly one waiter — the head of the wait queue, if any — is woken via
`wchan_wakeone`, all under the guard spinlock; but the owner field is
SET TO THE RELEASING THREAD (line 257 assigns it) rather than cleared
to none. -/
theorem lock_release_marks_free_sets_owner_wakes_one (ctx : Ctx) (l : LockState)
    (hid : ctx.curcpuExists = true) (hheld : l.flagLocked = 0)
    (_howner : l.owner = some ctx.curthread) :
    lock_release ctx l =
      LockRelResult.ok
        { flagLocked := 1, owner := some ctx.curthread,
          lockWchan := l.lockWchan.tail }
        l.lockWchan.head? :=
  lock_release_held_eq ctx l hid hheld

/-- Witness for the amended C4 theorem: thread 4 releases a lock it
holds with threads 7 and 8 queued; the lock becomes free, the owner
field holds 4, and exactly waiter 7 is woken. -/
theorem lock_release_marks_free_sets_owner_wakes_one_witness :
    lock_release { curcpuExists := true, curthread := 4, tInInterrupt := false }
        { flagLocked := 0, owner := some 4, lockWchan := [7, 8] } =
      LockRelResult.ok { flagLocked := 1, owner := some 4, lockWchan := [8] }
        (some 7) :=
  lock_release_marks_free_sets_owner_wakes_one
    { curcpuExists := true, curthread := 4, tInInterrupt := false }
    { flagLocked := 0, owner := some 4, lockWchan := [7, 8] } rfl rfl rfl

/-- C6 counterexample: the claim says `lock_destroy` is fatal on a
currently held lock. Destroying a lock in the held state (indicator 0,
owner recorded) with an empty wait queue succeeds: the code only runs
`spinlock_cleanup` and `wchan_destroy` and never examines the held
indicator. -/
theorem lock_destroy_held_lock_succeeds :
    lock_destroy { flagLocked := 0, owner := some 0, lockWchan := [] } =
      Except.ok () :=
  rfl

/-- C6 (amended): `lock_destroy` succeeds exactly when no thread is
queued on the lock's wait channel (`wchan_destroy` asserts emptiness);
the held state is not checked, so a held lock with an empty queue is
destroyed without a fatal assertion. -/
theorem lock_destroy_fatal_iff_waiters_queued (l : LockState) :
    lock_destroy l = Except.ok () ↔ l.lockWchan = [] := by
  obtain ⟨f, o, w⟩ := l
  cases w <;> simp [lock_destroy]

/-- C5 counterexample: the claim says the reachable states are exactly
FREE (indicator available, owner none) and HELD. The state with
indicator 1 (free) and owner still recorded as thread 0 is reachable —
create, acquire by thread 0, release by thread 0 — yet lies outside
the claimed set. -/
theorem lock_reachable_state_outside_claimed_set :
    LockReach { flagLocked := 1, owner := some 0, lockWchan := [] } ∧
    lockClaimSetB { flagLocked := 1, owner := some 0, lockWchan := [] } = false := by
  constructor
  · refine LockReach.rel 0 { flagLocked := 0, owner := some 0, lockWchan := [] }
      { flagLocked := 1, owner := some 0, lockWchan := [] } none ?_ rfl rfl (by decide)
    exact LockReach.acq 0 lock_create
      { flagLocked := 0, owner := some 0, lockWchan := [] }
      LockReach.created (by decide)
  · decide

/-- C5 (amended): under the spec's state-machine usage discipline
(create; successful acquire by a thread with identity; release by the
recorded holder), the reachable states are FREE (indicator 1, owner
none, only at creation), HELD(t) (indicator 0, owner t), and — after
any release — a third state the claim omits: indicator free (1) with
the owner field still holding the releasing thread t. Each of the
three shapes is reachable. -/
theorem lock_reachable_states_characterization :
    (∀ s : LockState, LockReach s → lockReachShape s) ∧
    (∀ t : Thread,
      LockReach { flagLocked := 0, owner := some t, lockWchan := [] } ∧
      LockReach { flagLocked := 1, owner := some t, lockWchan := [] }) := by
  have sound : ∀ s : LockState, LockReach s → lockReachShape s := by
    intro s h
    induction h with
    | created => exact ⟨rfl, Or.inl ⟨rfl, rfl⟩⟩
    | acq t s s₂ hr hacq ih =>
        obtain ⟨hw, _⟩ := ih
        obtain ⟨h1, h2, h3⟩ := lock_acquire_ok_post (mkCtx t) s s₂ rfl hacq
        exact ⟨by rw [h3, hw], Or.inr (Or.inl ⟨t, h1, h2⟩)⟩
    | rel t s s₂ w hr hheld hown hrel ih =>
        obtain ⟨hw, _⟩ := ih
        rw [lock_release_held_eq (mkCtx t) s rfl hheld] at hrel
        injection hrel with h1 h2
        subst h1
        refine ⟨by simp [hw], Or.inr (Or.inr ⟨t, rfl, rfl⟩)⟩
  have acq1 : ∀ t : Thread,
      LockReach { flagLocked := 0, owner := some t, lockWchan := [] } := by
    intro t
    refine LockReach.acq t lock_create _ LockReach.created ?_
    simp [lock_acquire, lock_create, mkCtx]
  have rel1 : ∀ t : Thread,
      LockReach { flagLocked := 1, owner := some t, lockWchan := [] } := by
    intro t
    refine LockReach.rel t { flagLocked := 0, owner := some t, lockWchan := [] }
      _ none (acq1 t) rfl rfl ?_
    exact lock_release_held_eq (mkCtx t) _ rfl rfl
  exact ⟨sound, fun t => ⟨acq1 t, rel1 t⟩⟩

/-- Witness for the amended C5 theorem: the free-with-stale-owner
state for thread 3, reached by create, acquire by 3, release by 3,
satisfies the characterization. -/
theorem lock_reachable_states_characterization_witness :
    lockReachShape { flagLocked := 1, owner := some 3, lockWchan := [] } :=
  lock_reachable_states_characterization.1 _
    (lock_reachable_states_characterization.2 3).2

/-- C7: for a caller holding the associated lock (thread identity
available), a run of `cv_wait` that returns produced exactly the
claimed call sequence — acquire cv guard, release the lock, sleep on
the cv wait queue, release the guard, re-acquire the lock; the guard
depth is still 1 through the sleep (the enqueue and the lock release
happen atomically with respect to the cv guard) and 0 after the
post-wake guard release; the lock really was released (indicator 1)
during the blocked interval; and the lock state on return is held with
the caller recorded as owner. -/
theorem cv_wait_trace_and_reacquire (ctx : Ctx) (lk lkAtWake : LockState)
    (hid : ctx.curcpuExists = true) (hheld : lk.flagLocked = 0)
    (tr : List CVEvent) (s : LockState)
    (hret : cv_wait_run ctx lk lkAtWake = CvWaitResult.returned tr s) :
    tr = cvWaitClaimedTrace ∧
    guardDepth (tr.take 3) = 1 ∧
    guardDepth (tr.take 4) = 0 ∧
    lock_release ctx lk =
      LockRelResult.ok
        { flagLocked := 1, owner := some ctx.curthread,
          lockWchan := lk.lockWchan.tail }
        lk.lockWchan.head? ∧
    s.flagLocked = 0 ∧ s.owner = some ctx.curthread := by
  have hrel := lock_release_held_eq ctx lk hid hheld
  cases hacq : lock_acquire ctx lkAtWake with
  | fatal m => simp [cv_wait_run, hrel, hacq] at hret
  | blockedOn s₂ => simp [cv_wait_run, hrel, hacq] at hret
  | ok s₂ =>
      simp only [cv_wait_run, hrel, hacq, CvWaitResult.returned.injEq] at hret
      obtain ⟨h1, h2⟩ := hret
      subst h2
      obtain ⟨p1, p2, _⟩ := lock_acquire_ok_post ctx lkAtWake s₂ hid hacq
      refine ⟨h1.symm, ?_, ?_, hrel, p1, p2⟩
      · rw [← h1]; decide
      · rw [← h1]; decide

/-- Witness for the C7 theorem: thread 5 holds the lock and calls
`cv_wait`; while it sleeps, thread 9 acquires and releases the lock
(so the lock is free with owner 9 at wake); the run returns with the
claimed trace and the lock held by thread 5 again. -/
theorem cv_wait_trace_and_reacquire_witness :
    cvWaitClaimedTrace = cvWaitClaimedTrace ∧
    guardDepth (cvWaitClaimedTrace.take 3) = 1 ∧
    guardDepth (cvWaitClaimedTrace.take 4) = 0 ∧
    lock_release { curcpuExists := true, curthread := 5, tInInterrupt := false }
        { flagLocked := 0, owner := some 5, lockWchan := [] } =
      LockRelResult.ok { flagLocked := 1, owner := some 5, lockWchan := [] } none ∧
    ({ flagLocked := 0, owner := some 5, lockWchan := [] } : LockState).flagLocked = 0 ∧
    ({ flagLocked := 0, owner := some 5, lockWchan := [] } : LockState).owner = some 5 :=
  cv_wait_trace_and_reacquire
    { curcpuExists := true, curthread := 5, tInInterrupt := false }
    { flagLocked := 0, owner := some 5, lockWchan := [] }
    { flagLocked := 1, owner := some 9, lockWchan := [] }
    rfl rfl cvWaitClaimedTrace
    { flagLocked := 0, owner := some 5, lockWchan := [] } (by decide)

/-- C8: semaphore created with count 0. Thread A (0) enters `P` from
non-interrupt context and blocks (the `while (sem_count == 0)` loop
puts it on the wait channel). Thread B then runs `V`: the count
becomes 1 and A is woken. A re-executes the loop check, finds the
count positive, decrements it and completes: the count is 0 again. -/
theorem sem_block_then_release_scenario :
    P_enter (mkCtx 0) 0 { sem_count := 0, sem_wchan := [] } =
      Except.ok ({ sem_count := 0, sem_wchan := [0] }, POutcome.blockedOut) ∧
    V_run { sem_count := 0, sem_wchan := [0] } =
      Except.ok ({ sem_count := 1, sem_wchan := [] }, some 0) ∧
    P_check 0 { sem_count := 1, sem_wchan := [] } =
      ({ sem_count := 0, sem_wchan := [] }, POutcome.completed) :=
  ⟨rfl, rfl, rfl⟩

/-- Accounting helper for semaphore histories: along any reachable
history the count stays below 2^32 and satisfies
`count + completed acquires = initial count + releases` exactly (a
completing `P` only ever decrements a strictly positive count, and a
non-fatal `V` increments without wrapping). -/
theorem semReach_count_eq (n : Nat) (s : SemState) (a v : Nat)
    (h : SemReach n s a v) (hn : n < UINT_MOD) :
    s.sem_count < UINT_MOD ∧ s.sem_count + a = n + v := by
  induction h with
  | init => exact ⟨hn, rfl⟩
  | pdone t s s₂ a v h hp ih =>
      obtain ⟨h1, h2⟩ := ih
      obtain ⟨c, q⟩ := s
      by_cases hc : c = 0
      · simp [P_check, hc] at hp
      · simp [P_check, hc] at hp
        subst hp
        simp only at h1 h2 ⊢
        omega
  | pblock t s s₂ a v h hp ih =>
      obtain ⟨h1, h2⟩ := ih
      obtain ⟨c, q⟩ := s
      by_cases hc : c = 0
      · simp [P_check, hc] at hp
        subst hp
        simp only at h1 h2 ⊢
        omega
      · simp [P_check, hc] at hp
  | vstep s s₂ w a v h hv ih =>
      obtain ⟨h1, h2⟩ := ih
      obtain ⟨c, q⟩ := s
      by_cases hc : (c + 1) % UINT_MOD = 0
      · simp [V_run, hc] at hv
      · cases q with
        | nil =>
            simp [V_run, hc] at hv
            have hs := hv.1
            subst hs
            simp only at h1 h2 ⊢
            unfold UINT_MOD at h1 hc ⊢
            omega
        | cons w₂ ws =>
            simp [V_run, hc] at hv
            have hs := hv.1
            subst hs
            simp only at h1 h2 ⊢
            unfold UINT_MOD at h1 hc ⊢
            omega

/-- C9: for every history of `P`/`V` operations on a semaphore created
with initial count n (below 2^32, as the C `unsigned` parameter is),
the number of completed `P` operations never exceeds the number of `V`
operations plus n, and the count exactly balances the books
(`count + acquires = n + releases`), hence is never negative: each
completing `P` decrements a strictly positive count and each `V`
increments it. -/
theorem sem_counting_invariant (n : Nat) (s : SemState) (a v : Nat)
    (hn : n < UINT_MOD) (h : SemReach n s a v) :
    a ≤ v + n ∧ s.sem_count + a = n + v := by
  obtain ⟨_, h2⟩ := semReach_count_eq n s a v h hn
  exact ⟨by omega, h2⟩

/-- Witness for the C9 theorem: the history of the count-0 semaphore
scenario — thread 0 blocks in `P`, a `V` wakes it, and its `P`
completes — reaches one completed acquire against one release. -/
theorem sem_counting_invariant_witness :
    1 ≤ 1 + 0 ∧
    ({ sem_count := 0, sem_wchan := [] } : SemState).sem_count + 1 = 0 + 1 :=
  sem_counting_invariant 0 { sem_count := 0, sem_wchan := [] } 1 1 (by decide)
    (SemReach.pdone 0 { sem_count := 1, sem_wchan := [] }
      { sem_count := 0, sem_wchan := [] } 0 1
      (SemReach.vstep { sem_count := 0, sem_wchan := [0] }
        { sem_count := 1, sem_wchan := [] } (some 0) 0 0
        (SemReach.pblock 0 { sem_count := 0, sem_wchan := [] }
          { sem_count := 0, sem_wchan := [0] } 0 0 SemReach.init rfl)
        rfl)
      rfl)

/-- C10: with thread identity available, after thread t releases a
lock it holds, the owner field equals t (line 257 assigned it) while
the lock is free (indicator 1); a subsequent `lock_acquire` by the
same t on this now-free lock trips the self-deadlock
`KASSERT(lock->owner != curthread)` and is fatal even though t does
not hold the lock. -/
theorem lock_release_then_reacquire_fatal (t : Thread) (l : LockState)
    (hheld : l.flagLocked = 0) (_howner : l.owner = some t) :
    ∃ (lr : LockState) (w : Option Thread),
      lock_release (mkCtx t) l = LockRelResult.ok lr w ∧
      lr.flagLocked = 1 ∧ lr.owner = some t ∧
      lock_acquire (mkCtx t) lr =
        LockAcqResult.fatal "KASSERT lock->owner != curthread" := by
  refine ⟨{ flagLocked := 1, owner := some t, lockWchan := l.lockWchan.tail },
          l.lockWchan.head?,
          lock_release_held_eq (mkCtx t) l rfl hheld, rfl, rfl, ?_⟩
  simp [lock_acquire, mkCtx]

/-- Witness for the C10 theorem: thread 0 releases the lock it holds,
the owner field still reads 0, and its immediate re-acquire is
fatal. -/
theorem lock_release_then_reacquire_fatal_witness :
    ∃ (lr : LockState) (w : Option Thread),
      lock_release (mkCtx 0) { flagLocked := 0, owner := some 0, lockWchan := [] } =
        LockRelResult.ok lr w ∧
      lr.flagLocked = 1 ∧ lr.owner = some 0 ∧
      lock_acquire (mkCtx 0) lr =
        LockAcqResult.fatal "KASSERT lock->owner != curthread" :=
  lock_release_then_reacquire_fatal 0
    { flagLocked := 0, owner := some 0, lockWchan := [] } rfl rfl

end Synch
